import Mathlib

/-!
Shallow embedding of `examples/send_otlp_logs.py`: a synthetic OTLP log
generator.  The script selects a transport (gRPC by default, HTTP with a
flag), builds 20 log records with randomly drawn severity+message pairs and
random attributes, hands them to the Python logging framework (root logger
level INFO), which forwards the surviving records to an OpenTelemetry
`BatchLogRecordProcessor`, and finally flushes via
`logger_provider.shutdown()` in a `finally` block.

Randomness is modelled by a stream `s : Nat → Nat` of raw draws; each call
site of the `random` module consumes one value of the stream, reduced
modulo the size of the set drawn from (`random.choice(xs)` becomes
`xs[s k % len xs]`, `random.randint(a, b)` becomes `a + s k % (b - a + 1)`);
iteration `i` of the emission loop consumes stream positions `6*i .. 6*i+5`
in call order.  Exit paths (normal completion, `KeyboardInterrupt`, other
unhandled exception) are modelled by a `Fault` parameter saying which fault,
if any, is raised during the emission loop and before which iteration.
-/

/-- The six OTLP severity levels appearing in the script's message catalog. -/
inductive Severity where
  | TRACE
  | DEBUG
  | INFO
  | WARNING
  | ERROR
  | FATAL
deriving DecidableEq, Repr

/-- The numeric Python logging level the script logs each severity at:
`logger.log(5, ...)` for TRACE, `logger.debug` (10), `logger.info` (20),
`logger.warning` (30), `logger.error` (40), `logger.critical` (50). -/
def Severity.pyLevel : Severity → Nat
  | .TRACE => 5
  | .DEBUG => 10
  | .INFO => 20
  | .WARNING => 30
  | .ERROR => 40
  | .FATAL => 50

/-- The fixed catalog `log_messages` of severity+message pairs (lines 67-80). -/
def log_messages : List (Severity × String) :=
  [ (.INFO, "[INFO] Application started successfully"),
    (.INFO, "[INFO] Connecting to database"),
    (.DEBUG, "[DEBUG] Database connection pool initialized"),
    (.INFO, "[INFO] Processing user request"),
    (.WARNING, "[WARN] High memory usage detected"),
    (.ERROR, "[ERROR] Failed to connect to external API"),
    (.INFO, "[INFO] Retrying connection..."),
    (.INFO, "[INFO] Successfully processed request"),
    (.DEBUG, "[DEBUG] Cache hit for key: user_123"),
    (.INFO, "[INFO] Request completed in 245ms"),
    (.TRACE, "[TRACE] Detailed trace information"),
    (.FATAL, "[FATAL] Critical system failure") ]

/-- The structured attributes attached to every record (the `extra` dict,
lines 128-135). -/
structure Attrs where
  request_id : String
  user_id : String
  latency_ms : Nat
  endpoint : String
  method : String
  status_code : Nat
deriving DecidableEq, Repr

/-- A log record as handed to the logging framework: severity, message body
and structured attributes. -/
structure LogRecord where
  severity : Severity
  message : String
  attrs : Attrs
deriving DecidableEq, Repr

/-- Zero padding to width 4, as in the format `f"req_\x7bi:04d\x7d"`. -/
def zeroPad4 (n : Nat) : String :=
  let s := toString n
  String.mk (List.replicate (4 - s.length) '0') ++ s

/-- The fixed endpoint paths drawn from (line 132). -/
def endpoints : List String := ["/api/users", "/api/products", "/api/orders"]

/-- The fixed HTTP methods drawn from (line 133). -/
def methods : List String := ["GET", "POST", "PUT", "DELETE"]

/-- The fixed status codes drawn from (line 134). -/
def status_codes : List Nat := [200, 201, 400, 404, 500]

/-- The `extra` attribute dict built at iteration `i` (lines 128-135), with
the random draws taken from stream positions `6*i+1 .. 6*i+5`. -/
def mkAttrs (s : Nat → Nat) (i : Nat) : Attrs :=
  { request_id := "req_" ++ zeroPad4 i
    user_id := "user_" ++ toString (100 + s (6 * i + 1) % 900)
    latency_ms := 10 + s (6 * i + 2) % 491
    endpoint := endpoints.getD (s (6 * i + 3) % endpoints.length) ""
    method := methods.getD (s (6 * i + 4) % methods.length) ""
    status_code := status_codes.getD (s (6 * i + 5) % status_codes.length) 0 }

/-- The record built at iteration `i`: `level, message = random.choice(log_messages)`
(stream position `6*i`) together with the fresh attribute set. -/
def mkRecord (s : Nat → Nat) (i : Nat) : LogRecord :=
  let pair := log_messages.getD (s (6 * i) % log_messages.length) (.INFO, "")
  { severity := pair.1, message := pair.2, attrs := mkAttrs s i }

/-- The root logger level set by `logging.getLogger().setLevel(logging.INFO)`
(line 111): `logging.INFO = 20`. -/
def rootLevel : Nat := 20

/-- Whether a record survives the logging framework's level check: the call
`logger.<level>` creates and propagates a record only when its numeric level
is at least the logger's effective level, which is the root level INFO. -/
def passesFilter (r : LogRecord) : Bool := rootLevel ≤ r.severity.pyLevel

/-- The opaque exporter capability returned by `get_exporter`: protocol name,
bound endpoint and connection security mode. -/
structure Exporter where
  protocol : String
  endpoint : String
  insecure : Bool
deriving DecidableEq, Repr

/-- Runtime environment: which optional exporter packages are importable. -/
structure Env where
  httpExporterAvailable : Bool
  grpcExporterAvailable : Bool
deriving DecidableEq, Repr

/-- The HTTP exporter constructed at lines 45-47. -/
def httpExporter : Exporter :=
  { protocol := "HTTP", endpoint := "http://localhost:4318/v1/logs", insecure := false }

/-- The gRPC exporter constructed at lines 56-59. -/
def grpcExporter : Exporter :=
  { protocol := "gRPC", endpoint := "localhost:4317", insecure := true }

/-- `get_exporter(use_http)` (lines 39-63): returns the HTTP exporter bound to
`http://localhost:4318/v1/logs` when `use_http` is set, the insecure gRPC
exporter bound to `localhost:4317` otherwise; if the needed package fails to
import, calls `sys.exit(1)`, modelled as `Except.error 1`.  There is no
fallback from one protocol to the other. -/
def get_exporter (env : Env) (use_http : Bool) : Except Nat Exporter :=
  if use_http then
    if env.httpExporterAvailable then .ok httpExporter else .error 1
  else
    if env.grpcExporterAvailable then .ok grpcExporter else .error 1

/-- Whether the package needed for the selected transport is importable. -/
def capabilityAvailable (env : Env) (use_http : Bool) : Bool :=
  if use_http then env.httpExporterAvailable else env.grpcExporterAvailable

/-- The `BatchLogRecordProcessor` together with the OTLP transport behind it,
for a run with no delivery errors: `buffer` holds accepted records not yet
handed to the transport, `exported` the records the transport has observed
(in hand-off order), `shutdownCount` how many times `shutdown` ran, and
`accepting` whether the processor still accepts records (false after
shutdown). -/
structure Dispatcher where
  buffer : List LogRecord
  exported : List LogRecord
  shutdownCount : Nat
  accepting : Bool
deriving DecidableEq, Repr

/-- The processor attached to the fresh `LoggerProvider` (lines 104-106). -/
def Dispatcher.init : Dispatcher :=
  { buffer := [], exported := [], shutdownCount := 0, accepting := true }

/-- Handing one record to the processor: appended to the buffer in arrival
order; refused after shutdown. -/
def Dispatcher.emit (d : Dispatcher) (r : LogRecord) : Dispatcher :=
  if d.accepting then { d with buffer := d.buffer ++ [r] } else d

/-- `logger_provider.shutdown()` (line 162): flushes the buffered records to
the transport in order and stops accepting further records. -/
def Dispatcher.shutdown (d : Dispatcher) : Dispatcher :=
  { buffer := [], exported := d.exported ++ d.buffer,
    shutdownCount := d.shutdownCount + 1, accepting := false }

/-- One iteration of the emission loop as seen by the logging framework: the
record reaches the handler (and hence the processor) only when it passes the
root-level filter. -/
def logOne (d : Dispatcher) (r : LogRecord) : Dispatcher :=
  if passesFilter r then d.emit r else d

/-- State threaded through the emission loop: records produced so far (in
emission order) and the processor state. -/
structure SessionState where
  emitted : List LogRecord
  dispatcher : Dispatcher
deriving DecidableEq, Repr

def SessionState.init : SessionState :=
  { emitted := [], dispatcher := Dispatcher.init }

/-- One loop iteration (lines 124-155): build the record, log it. -/
def loopStep (s : Nat → Nat) (st : SessionState) (i : Nat) : SessionState :=
  let r := mkRecord s i
  { emitted := st.emitted ++ [r], dispatcher := logOne st.dispatcher r }

/-- The first `n` iterations of the emission loop. -/
def loopState (s : Nat → Nat) (n : Nat) : SessionState :=
  (List.range n).foldl (loopStep s) SessionState.init

/-- The fixed record count of the loop `for i in range(20)` (line 124). -/
def recordCount : Nat := 20

/-- Which fault, if any, is raised during the emission loop: none (the loop
runs to completion), a `KeyboardInterrupt` before iteration `k`, or another
unhandled exception before iteration `k`. -/
inductive Fault where
  | none
  | interrupt (k : Nat)
  | failure (k : Nat)
deriving DecidableEq, Repr

/-- How many loop iterations complete before the fault (if any) fires. -/
def faultPoint : Fault → Nat
  | .none => recordCount
  | .interrupt k => min k recordCount
  | .failure k => min k recordCount

/-- How the process run ended. -/
inductive ExitPath where
  | normal
  | interrupted
  | errored
deriving DecidableEq, Repr

/-- Observable outcome of a run of `main`. -/
structure RunResult where
  exporter : Option Exporter
  emitted : List LogRecord
  dispatcher : Dispatcher
  exit : ExitPath
  exitCode : Nat
deriving DecidableEq, Repr

/-- `main()` (lines 82-163): select the exporter (exiting with status 1 before
any emission when the capability is missing), run the emission loop until
completion or fault, catch `KeyboardInterrupt` (clean exit), let any other
exception propagate (non-zero exit), and in all three of those paths run the
`finally` block, which calls `logger_provider.shutdown()` once. -/
def run_main (env : Env) (use_http : Bool) (s : Nat → Nat) (f : Fault) : RunResult :=
  match get_exporter env use_http with
  | .error c =>
      { exporter := Option.none, emitted := [], dispatcher := Dispatcher.init,
        exit := .errored, exitCode := c }
  | .ok e =>
      let st := loopState s (faultPoint f)
      let d := st.dispatcher.shutdown
      match f with
      | .none =>
          { exporter := some e, emitted := st.emitted, dispatcher := d,
            exit := .normal, exitCode := 0 }
      | .interrupt _ =>
          { exporter := some e, emitted := st.emitted, dispatcher := d,
            exit := .interrupted, exitCode := 0 }
      | .failure _ =>
          { exporter := some e, emitted := st.emitted, dispatcher := d,
            exit := .errored, exitCode := 1 }

/-! ### Basic lemmas about the emission loop and the run -/

theorem loopState_succ (s : Nat → Nat) (n : Nat) :
    loopState s (n + 1) = loopStep s (loopState s n) n := by
  simp [loopState, List.range_succ]

theorem loopState_emitted (s : Nat → Nat) (n : Nat) :
    (loopState s n).emitted = (List.range n).map (mkRecord s) := by
  induction n with
  | zero => rfl
  | succ n ih =>
      rw [loopState_succ, List.range_succ]
      simp [loopStep, ih]

theorem loopState_dispatcher (s : Nat → Nat) (n : Nat) :
    (loopState s n).dispatcher =
      { buffer := ((List.range n).map (mkRecord s)).filter passesFilter,
        exported := [], shutdownCount := 0, accepting := true } := by
  induction n with
  | zero => rfl
  | succ n ih =>
      rw [loopState_succ, List.range_succ]
      cases hp : passesFilter (mkRecord s n) <;>
        simp [loopStep, ih, logOne, Dispatcher.emit, hp]

theorem get_exporter_of_available (env : Env) (u : Bool)
    (h : capabilityAvailable env u = true) :
    get_exporter env u = .ok (if u then httpExporter else grpcExporter) := by
  unfold get_exporter capabilityAvailable at *
  cases u <;> simp_all

theorem get_exporter_of_unavailable (env : Env) (u : Bool)
    (h : capabilityAvailable env u = false) :
    get_exporter env u = .error 1 := by
  unfold get_exporter capabilityAvailable at *
  cases u <;> simp_all

theorem run_main_eq_ok (env : Env) (u : Bool) (s : Nat → Nat) (f : Fault) (e : Exporter)
    (he : get_exporter env u = .ok e) :
    run_main env u s f =
      { exporter := some e,
        emitted := (List.range (faultPoint f)).map (mkRecord s),
        dispatcher :=
          { buffer := [],
            exported := ((List.range (faultPoint f)).map (mkRecord s)).filter passesFilter,
            shutdownCount := 1, accepting := false },
        exit := (match f with
                 | .none => .normal | .interrupt _ => .interrupted | .failure _ => .errored),
        exitCode := (match f with | .failure _ => 1 | _ => 0) } := by
  unfold run_main
  rw [he]
  cases f <;>
    simp [loopState_emitted, loopState_dispatcher, Dispatcher.shutdown]

theorem faultPoint_le (f : Fault) : faultPoint f ≤ recordCount := by
  cases f <;> simp [faultPoint]

/-! ### String helpers and record distinctness -/

theorem string_append_left_cancel (a b c : String) (h : a ++ b = a ++ c) : b = c := by
  have hd : a.data ++ b.data = a.data ++ c.data := by
    have h2 := congrArg String.data h
    simpa [String.data_append] using h2
  exact String.ext (List.append_cancel_left hd)

theorem append_ne_empty_left (a b : String) (ha : a ≠ "") : a ++ b ≠ "" := by
  intro h
  apply ha
  have hd := congrArg String.data h
  simp [String.data_append] at hd
  exact String.ext (by simp [hd.1])

theorem zeroPad4_inj_on :
    ∀ i < recordCount, ∀ j < recordCount, zeroPad4 i = zeroPad4 j → i = j := by decide

theorem mkRecord_request_id (s : Nat → Nat) (i : Nat) :
    (mkRecord s i).attrs.request_id = "req_" ++ zeroPad4 i := rfl

theorem mkRecord_inj_on (s : Nat → Nat) :
    ∀ i < recordCount, ∀ j < recordCount, mkRecord s i = mkRecord s j → i = j := by
  intro i hi j hj h
  have hreq : "req_" ++ zeroPad4 i = "req_" ++ zeroPad4 j := by
    rw [← mkRecord_request_id s i, ← mkRecord_request_id s j, h]
  exact zeroPad4_inj_on i hi j hj (string_append_left_cancel _ _ _ hreq)

theorem emitted_nodup (s : Nat → Nat) (n : Nat) (hn : n ≤ recordCount) :
    ((List.range n).map (mkRecord s)).Nodup := by
  apply List.Nodup.map_on
  · intro i hi j hj h
    exact mkRecord_inj_on s i (lt_of_lt_of_le (List.mem_range.mp hi) hn)
      j (lt_of_lt_of_le (List.mem_range.mp hj) hn) h
  · exact List.nodup_range n

theorem getD_mem_of_lt {α : Type} (l : List α) (d : α) (n : Nat) (h : n < l.length) :
    l.getD n d ∈ l := by
  rw [List.getD_eq_getElem l d h]
  exact List.getElem_mem h

theorem getD_map_range {α : Type} (g : Nat → α) (n i : Nat) (d : α) (h : i < n) :
    ((List.range n).map g).getD i d = g i := by
  have hl : i < ((List.range n).map g).length := by simpa using h
  rw [List.getD_eq_getElem _ _ hl]
  simp

theorem severity_mem_six (sev : Severity) :
    sev ∈ [Severity.TRACE, Severity.DEBUG, Severity.INFO,
           Severity.WARNING, Severity.ERROR, Severity.FATAL] := by
  cases sev <;> decide

theorem mkAttrs_spec (s : Nat → Nat) (i : Nat) :
    (mkAttrs s i).request_id = "req_" ++ zeroPad4 i ∧
    (∃ n, 100 ≤ n ∧ n ≤ 999 ∧ (mkAttrs s i).user_id = "user_" ++ toString n) ∧
    10 ≤ (mkAttrs s i).latency_ms ∧ (mkAttrs s i).latency_ms ≤ 500 ∧
    (mkAttrs s i).endpoint ∈ endpoints ∧
    (mkAttrs s i).method ∈ methods ∧
    (mkAttrs s i).status_code ∈ status_codes := by
  simp only [mkAttrs]
  refine ⟨trivial, ⟨100 + s (6 * i + 1) % 900, Nat.le_add_right 100 _, ?_, rfl⟩, ?_, ?_, ?_, ?_, ?_⟩
  · have h1 : s (6 * i + 1) % 900 < 900 := Nat.mod_lt _ (by decide)
    omega
  · exact Nat.le_add_right 10 _
  · have h2 : s (6 * i + 2) % 491 < 491 := Nat.mod_lt _ (by decide)
    omega
  · exact getD_mem_of_lt _ _ _ (Nat.mod_lt _ (by decide))
  · exact getD_mem_of_lt _ _ _ (Nat.mod_lt _ (by decide))
  · exact getD_mem_of_lt _ _ _ (Nat.mod_lt _ (by decide))

theorem endpoints_ne_empty : ∀ x ∈ endpoints, x ≠ "" := by decide

theorem methods_ne_empty : ∀ x ∈ methods, x ≠ "" := by decide

theorem status_codes_pos : ∀ x ∈ status_codes, 0 < x := by decide

/-! ### Claim theorems -/

/-- C1 counterexample: the claim "every one of the 20 records the emitter
produces is observed by the transport exactly once ... regardless of which
severity+message pair was drawn" is false.  With a random stream that always
draws catalog entry 2 — a DEBUG record — the root logger level INFO discards
every record before the handler sees it, so the transport observes record 0
zero times, not once. -/
theorem C1_counterexample :
    ¬ ∀ (s : Nat → Nat) (i : Nat), i < recordCount →
        (run_main ⟨true, true⟩ false s Fault.none).dispatcher.exported.count
          (mkRecord s i) = 1 := by
  intro h
  have h0 := h (fun _ => 2) 0 (by decide)
  rw [show (run_main ⟨true, true⟩ false (fun _ => 2) Fault.none).dispatcher.exported
        = [] from rfl] at h0
  simp at h0

/-- C1 amended: in a completed run with no delivery errors, the transport
observes exactly the emitted records that pass the root-level INFO filter, in
particular each produced record that passes the filter is observed exactly
once and each produced record that does not pass it (severity TRACE or DEBUG)
is observed zero times; no record is duplicated. -/
theorem C1_exactly_once_after_filter (s : Nat → Nat) (i : Nat) (hi : i < recordCount) :
    (run_main ⟨true, true⟩ false s Fault.none).dispatcher.exported
        = (run_main ⟨true, true⟩ false s Fault.none).emitted.filter passesFilter ∧
    (passesFilter (mkRecord s i) = true →
      (run_main ⟨true, true⟩ false s Fault.none).dispatcher.exported.count
        (mkRecord s i) = 1) ∧
    (passesFilter (mkRecord s i) = false →
      (run_main ⟨true, true⟩ false s Fault.none).dispatcher.exported.count
        (mkRecord s i) = 0) := by
  have he : get_exporter ⟨true, true⟩ false = .ok grpcExporter := rfl
  rw [run_main_eq_ok _ _ _ _ _ he]
  refine ⟨rfl, ?_, ?_⟩
  · intro hp
    show (((List.range (faultPoint Fault.none)).map (mkRecord s)).filter passesFilter).count
        (mkRecord s i) = 1
    rw [List.count_filter hp]
    exact List.count_eq_one_of_mem (emitted_nodup s _ (faultPoint_le _))
      (List.mem_map_of_mem _ (List.mem_range.mpr hi))
  · intro hp
    show (((List.range (faultPoint Fault.none)).map (mkRecord s)).filter passesFilter).count
        (mkRecord s i) = 0
    apply List.count_eq_zero_of_not_mem
    intro hmem
    rw [(List.mem_filter.mp hmem).2] at hp
    exact Bool.noConfusion hp

/-- C1 witness: instantiation at the all-zeros stream and record index 0 (an
INFO record, which passes the filter and is observed exactly once). -/
theorem C1_witness :
    0 < recordCount ∧
    ((run_main ⟨true, true⟩ false (fun _ => 0) Fault.none).dispatcher.exported
        = (run_main ⟨true, true⟩ false (fun _ => 0) Fault.none).emitted.filter passesFilter ∧
    (passesFilter (mkRecord (fun _ => 0) 0) = true →
      (run_main ⟨true, true⟩ false (fun _ => 0) Fault.none).dispatcher.exported.count
        (mkRecord (fun _ => 0) 0) = 1) ∧
    (passesFilter (mkRecord (fun _ => 0) 0) = false →
      (run_main ⟨true, true⟩ false (fun _ => 0) Fault.none).dispatcher.exported.count
        (mkRecord (fun _ => 0) 0) = 0)) :=
  ⟨by decide, C1_exactly_once_after_filter (fun _ => 0) 0 (by decide)⟩

/-- C2: when the exporter capability required by the selected transport is
unavailable, the run exits with non-zero status before any emission: no
record is emitted, the transport observes nothing, and no exporter (in
particular not the other transport's) is ever constructed. -/
theorem C2_missing_capability_is_fatal (env : Env) (u : Bool) (s : Nat → Nat) (f : Fault)
    (h : capabilityAvailable env u = false) :
    (run_main env u s f).exitCode ≠ 0 ∧
    (run_main env u s f).emitted = [] ∧
    (run_main env u s f).dispatcher.exported = [] ∧
    (run_main env u s f).exporter = Option.none := by
  have he := get_exporter_of_unavailable env u h
  unfold run_main
  rw [he]
  exact ⟨Nat.one_ne_zero, rfl, rfl, rfl⟩

/-- C2 witness: HTTP selected while the HTTP exporter package is missing
(though the gRPC one is present): exit status 1, zero records, no fallback. -/
theorem C2_witness :
    capabilityAvailable ⟨false, true⟩ true = false ∧
    ((run_main ⟨false, true⟩ true (fun _ => 0) Fault.none).exitCode ≠ 0 ∧
     (run_main ⟨false, true⟩ true (fun _ => 0) Fault.none).emitted = [] ∧
     (run_main ⟨false, true⟩ true (fun _ => 0) Fault.none).dispatcher.exported = [] ∧
     (run_main ⟨false, true⟩ true (fun _ => 0) Fault.none).exporter = Option.none) :=
  ⟨by decide, C2_missing_capability_is_fatal ⟨false, true⟩ true (fun _ => 0) Fault.none (by decide)⟩

/-- C3: on every exit path of a session that got past exporter construction —
normal completion, interruption, or unhandled failure during emission — the
terminal flush (`logger_provider.shutdown`) runs exactly once, and afterwards
the processor accepts no further record (handing it another record leaves it
unchanged). -/
theorem C3_shutdown_flush_exactly_once (env : Env) (u : Bool) (s : Nat → Nat) (f : Fault)
    (h : capabilityAvailable env u = true) :
    (run_main env u s f).dispatcher.shutdownCount = 1 ∧
    (run_main env u s f).dispatcher.accepting = false ∧
    (∀ r : LogRecord,
      ((run_main env u s f).dispatcher).emit r = (run_main env u s f).dispatcher) := by
  have he := get_exporter_of_available env u h
  rw [run_main_eq_ok _ _ _ _ _ he]
  exact ⟨rfl, rfl, fun r => rfl⟩

/-- C3 witness: instantiation at the default gRPC configuration with an
interrupt after 3 records. -/
theorem C3_witness :
    capabilityAvailable ⟨true, true⟩ false = true ∧
    ((run_main ⟨true, true⟩ false (fun _ => 0) (Fault.interrupt 3)).dispatcher.shutdownCount = 1 ∧
     (run_main ⟨true, true⟩ false (fun _ => 0) (Fault.interrupt 3)).dispatcher.accepting = false ∧
     (∀ r : LogRecord,
       ((run_main ⟨true, true⟩ false (fun _ => 0) (Fault.interrupt 3)).dispatcher).emit r
         = (run_main ⟨true, true⟩ false (fun _ => 0) (Fault.interrupt 3)).dispatcher)) :=
  ⟨by decide, C3_shutdown_flush_exactly_once ⟨true, true⟩ false (fun _ => 0)
    (Fault.interrupt 3) (by decide)⟩

/-- C6: two runs that differ only in the transport flag and share the random
stream produce identical record sequences, identical transport observations
and identical exit behaviour; only the bound exporter capability (protocol,
endpoint, security mode) differs. -/
theorem C6_transport_flag_changes_only_exporter (s : Nat → Nat) (f : Fault) :
    (run_main ⟨true, true⟩ false s f).emitted = (run_main ⟨true, true⟩ true s f).emitted ∧
    (run_main ⟨true, true⟩ false s f).dispatcher = (run_main ⟨true, true⟩ true s f).dispatcher ∧
    (run_main ⟨true, true⟩ false s f).exit = (run_main ⟨true, true⟩ true s f).exit ∧
    (run_main ⟨true, true⟩ false s f).exitCode = (run_main ⟨true, true⟩ true s f).exitCode ∧
    (run_main ⟨true, true⟩ false s f).exporter = some grpcExporter ∧
    (run_main ⟨true, true⟩ true s f).exporter = some httpExporter := by
  rw [run_main_eq_ok ⟨true, true⟩ false s f grpcExporter rfl,
      run_main_eq_ok ⟨true, true⟩ true s f httpExporter rfl]
  exact ⟨rfl, rfl, rfl, rfl, rfl, rfl⟩

/-- C4 counterexample: the claim "if an interrupt arrives after exactly k
records have been emitted, exactly those k records are flushed" is false.
With a stream that always draws catalog entry 2 (a DEBUG record) and an
interrupt after 1 record, the one emitted record is discarded by the
root-level INFO filter, so the flush delivers nothing, not that record. -/
theorem C4_counterexample :
    ¬ ∀ (s : Nat → Nat) (k : Nat), k ≤ recordCount →
        ((run_main ⟨true, true⟩ false s (Fault.interrupt k)).dispatcher.exported
            = (run_main ⟨true, true⟩ false s (Fault.interrupt k)).emitted ∧
         (run_main ⟨true, true⟩ false s (Fault.interrupt k)).emitted.length = k ∧
         (run_main ⟨true, true⟩ false s (Fault.interrupt k)).exitCode = 0) := by
  intro h
  obtain ⟨h1, h2, _⟩ := h (fun _ => 2) 1 (by decide)
  rw [show (run_main ⟨true, true⟩ false (fun _ => 2) (Fault.interrupt 1)).dispatcher.exported
        = [] from rfl] at h1
  rw [← h1] at h2
  simp at h2

/-- C4 amended: if an interrupt arrives after exactly k of the 20 records
have been emitted, exactly those k records are produced (the remaining 20-k
are never attempted), exactly those of the k that pass the root-level INFO
filter are flushed to the transport, and the process exits cleanly with
status 0 (the interrupt is not treated as an error). -/
theorem C4_interrupt_flushes_filtered_prefix (s : Nat → Nat) (k : Nat) (hk : k ≤ recordCount) :
    (run_main ⟨true, true⟩ false s (Fault.interrupt k)).emitted
        = (List.range k).map (mkRecord s) ∧
    (run_main ⟨true, true⟩ false s (Fault.interrupt k)).emitted.length = k ∧
    (run_main ⟨true, true⟩ false s (Fault.interrupt k)).dispatcher.exported
        = ((List.range k).map (mkRecord s)).filter passesFilter ∧
    (run_main ⟨true, true⟩ false s (Fault.interrupt k)).exitCode = 0 ∧
    (run_main ⟨true, true⟩ false s (Fault.interrupt k)).exit = ExitPath.interrupted := by
  rw [run_main_eq_ok ⟨true, true⟩ false s (Fault.interrupt k) grpcExporter rfl]
  have hfp : faultPoint (Fault.interrupt k) = k := Nat.min_eq_left hk
  refine ⟨?_, ?_, ?_, rfl, rfl⟩
  · show (List.range (faultPoint (Fault.interrupt k))).map (mkRecord s)
        = (List.range k).map (mkRecord s)
    rw [hfp]
  · show ((List.range (faultPoint (Fault.interrupt k))).map (mkRecord s)).length = k
    rw [hfp]; simp
  · show ((List.range (faultPoint (Fault.interrupt k))).map (mkRecord s)).filter passesFilter
        = ((List.range k).map (mkRecord s)).filter passesFilter
    rw [hfp]

/-- C4 witness: interrupt after 5 of the 20 records under the all-zeros
stream. -/
theorem C4_witness :
    5 ≤ recordCount ∧
    ((run_main ⟨true, true⟩ false (fun _ => 0) (Fault.interrupt 5)).emitted
        = (List.range 5).map (mkRecord (fun _ => 0)) ∧
    (run_main ⟨true, true⟩ false (fun _ => 0) (Fault.interrupt 5)).emitted.length = 5 ∧
    (run_main ⟨true, true⟩ false (fun _ => 0) (Fault.interrupt 5)).dispatcher.exported
        = ((List.range 5).map (mkRecord (fun _ => 0))).filter passesFilter ∧
    (run_main ⟨true, true⟩ false (fun _ => 0) (Fault.interrupt 5)).exitCode = 0 ∧
    (run_main ⟨true, true⟩ false (fun _ => 0) (Fault.interrupt 5)).exit
        = ExitPath.interrupted) :=
  ⟨by decide, C4_interrupt_flushes_filtered_prefix (fun _ => 0) 5 (by decide)⟩

/-- C5: a record whose drawn severity is TRACE or DEBUG never reaches the
processor behind the OpenTelemetry handler: every record the transport
observes, in any run and on any exit path, has severity INFO, WARNING, ERROR
or FATAL, because the root logger level INFO discards lower records before
the handler sees them. -/
theorem C5_trace_debug_never_reach_handler (env : Env) (u : Bool) (s : Nat → Nat) (f : Fault)
    (r : LogRecord) (h : r ∈ (run_main env u s f).dispatcher.exported) :
    r.severity ≠ Severity.TRACE ∧ r.severity ≠ Severity.DEBUG ∧
    (r.severity = Severity.INFO ∨ r.severity = Severity.WARNING ∨
     r.severity = Severity.ERROR ∨ r.severity = Severity.FATAL) := by
  have hp : passesFilter r = true := by
    cases he : get_exporter env u with
    | error c =>
        unfold run_main at h
        rw [he] at h
        simp [Dispatcher.init] at h
    | ok e =>
        rw [run_main_eq_ok env u s f e he] at h
        exact (List.mem_filter.mp h).2
  have h20 : rootLevel ≤ r.severity.pyLevel := by simpa [passesFilter] using hp
  cases hs : r.severity <;> rw [hs] at h20 <;>
    simp_all [Severity.pyLevel, rootLevel]

/-- C5 witness: under the all-zeros stream the first record (an INFO draw) is
observed by the transport, and its severity lies in the allowed set. -/
theorem C5_witness :
    (mkRecord (fun _ => 0) 0 ∈
      (run_main ⟨true, true⟩ false (fun _ => 0) Fault.none).dispatcher.exported) ∧
    ((mkRecord (fun _ => 0) 0).severity ≠ Severity.TRACE ∧
     (mkRecord (fun _ => 0) 0).severity ≠ Severity.DEBUG ∧
     ((mkRecord (fun _ => 0) 0).severity = Severity.INFO ∨
      (mkRecord (fun _ => 0) 0).severity = Severity.WARNING ∨
      (mkRecord (fun _ => 0) 0).severity = Severity.ERROR ∨
      (mkRecord (fun _ => 0) 0).severity = Severity.FATAL)) :=
  ⟨by decide, C5_trace_debug_never_reach_handler ⟨true, true⟩ false (fun _ => 0) Fault.none
    (mkRecord (fun _ => 0) 0) (by decide)⟩

/-- C7: every emitted record, in any run and on any exit path, has a severity
from the fixed six-level set, and every key of the fixed attribute set is
present with a non-empty value: the string-valued attributes are non-empty
strings and the numeric attributes are positive. -/
theorem C7_severity_set_and_attrs_nonempty (env : Env) (u : Bool) (s : Nat → Nat) (f : Fault)
    (r : LogRecord) (h : r ∈ (run_main env u s f).emitted) :
    r.severity ∈ [Severity.TRACE, Severity.DEBUG, Severity.INFO,
                  Severity.WARNING, Severity.ERROR, Severity.FATAL] ∧
    r.attrs.request_id ≠ "" ∧ r.attrs.user_id ≠ "" ∧
    0 < r.attrs.latency_ms ∧ r.attrs.endpoint ≠ "" ∧
    r.attrs.method ≠ "" ∧ 0 < r.attrs.status_code := by
  have hr : ∃ i, r = mkRecord s i := by
    cases he : get_exporter env u with
    | error c =>
        unfold run_main at h
        rw [he] at h
        simp [Dispatcher.init] at h
    | ok e =>
        rw [run_main_eq_ok env u s f e he] at h
        simp only [List.mem_map, List.mem_range] at h
        obtain ⟨i, _, hi⟩ := h
        exact ⟨i, hi.symm⟩
  obtain ⟨i, rfl⟩ := hr
  obtain ⟨-, ⟨n, -, -, h2⟩, h3, -, h5, h6, h7⟩ := mkAttrs_spec s i
  have hattrs : (mkRecord s i).attrs = mkAttrs s i := rfl
  refine ⟨severity_mem_six _, ?_, ?_, ?_, ?_, ?_, ?_⟩
  · rw [hattrs]
    show "req_" ++ zeroPad4 i ≠ ""
    exact append_ne_empty_left _ _ (by decide)
  · rw [hattrs, h2]
    exact append_ne_empty_left _ _ (by decide)
  · rw [hattrs]; omega
  · rw [hattrs]; exact endpoints_ne_empty _ h5
  · rw [hattrs]; exact methods_ne_empty _ h6
  · rw [hattrs]; exact status_codes_pos _ h7

/-- C7 witness: the first record of the all-zeros run. -/
theorem C7_witness :
    (mkRecord (fun _ => 0) 0 ∈
      (run_main ⟨true, true⟩ false (fun _ => 0) Fault.none).emitted) ∧
    ((mkRecord (fun _ => 0) 0).severity ∈ [Severity.TRACE, Severity.DEBUG, Severity.INFO,
        Severity.WARNING, Severity.ERROR, Severity.FATAL] ∧
     (mkRecord (fun _ => 0) 0).attrs.request_id ≠ "" ∧
     (mkRecord (fun _ => 0) 0).attrs.user_id ≠ "" ∧
     0 < (mkRecord (fun _ => 0) 0).attrs.latency_ms ∧
     (mkRecord (fun _ => 0) 0).attrs.endpoint ≠ "" ∧
     (mkRecord (fun _ => 0) 0).attrs.method ≠ "" ∧
     0 < (mkRecord (fun _ => 0) 0).attrs.status_code) :=
  ⟨by decide, C7_severity_set_and_attrs_nonempty ⟨true, true⟩ false (fun _ => 0) Fault.none
    (mkRecord (fun _ => 0) 0) (by decide)⟩

/-- C8: the records the transport observes are exactly the emitted records
surviving the level filter, in emission order; in particular the observed
sequence is an order-preserving subsequence of the emission sequence, so no
reordering ever occurs. -/
theorem C8_transport_order_equals_emission_order (env : Env) (u : Bool)
    (s : Nat → Nat) (f : Fault) :
    (run_main env u s f).dispatcher.exported
        = (run_main env u s f).emitted.filter passesFilter ∧
    List.Sublist (run_main env u s f).dispatcher.exported (run_main env u s f).emitted := by
  cases he : get_exporter env u with
  | error c =>
      unfold run_main
      rw [he]
      exact ⟨rfl, List.Sublist.refl []⟩
  | ok e =>
      rw [run_main_eq_ok env u s f e he]
      exact ⟨rfl, List.filter_sublist _⟩

/-- Fallback record used only as the default of positional list access. -/
def defaultRecord : LogRecord :=
  { severity := .INFO, message := "",
    attrs := { request_id := "", user_id := "", latency_ms := 0,
               endpoint := "", method := "", status_code := 0 } }

/-- C9: the record emitted at index i carries a freshly generated attribute
set: request_id is "req_" followed by i zero-padded to four digits
(sequential across the run), user_id is drawn from the range 100-999,
latency_ms from the range 10-500, endpoint from the fixed path set, method
from the fixed method set, and status_code from the fixed code set. -/
theorem C9_fresh_attribute_generation (s : Nat → Nat) (f : Fault) (i : Nat)
    (hi : i < (run_main ⟨true, true⟩ false s f).emitted.length) :
    (((run_main ⟨true, true⟩ false s f).emitted.getD i defaultRecord).attrs.request_id
        = "req_" ++ zeroPad4 i) ∧
    (∃ n, 100 ≤ n ∧ n ≤ 999 ∧
      ((run_main ⟨true, true⟩ false s f).emitted.getD i defaultRecord).attrs.user_id
        = "user_" ++ toString n) ∧
    (10 ≤ ((run_main ⟨true, true⟩ false s f).emitted.getD i defaultRecord).attrs.latency_ms) ∧
    (((run_main ⟨true, true⟩ false s f).emitted.getD i defaultRecord).attrs.latency_ms ≤ 500) ∧
    (((run_main ⟨true, true⟩ false s f).emitted.getD i defaultRecord).attrs.endpoint
        ∈ endpoints) ∧
    (((run_main ⟨true, true⟩ false s f).emitted.getD i defaultRecord).attrs.method
        ∈ methods) ∧
    (((run_main ⟨true, true⟩ false s f).emitted.getD i defaultRecord).attrs.status_code
        ∈ status_codes) := by
  have he : get_exporter ⟨true, true⟩ false = .ok grpcExporter := rfl
  rw [run_main_eq_ok _ _ _ _ _ he] at hi ⊢
  have hlt : i < faultPoint f := by simpa using hi
  have hgd : ((List.range (faultPoint f)).map (mkRecord s)).getD i defaultRecord
      = mkRecord s i := getD_map_range (mkRecord s) (faultPoint f) i defaultRecord hlt
  show ((((List.range (faultPoint f)).map (mkRecord s)).getD i defaultRecord).attrs.request_id
      = "req_" ++ zeroPad4 i) ∧ _
  rw [hgd]
  exact mkAttrs_spec s i

/-- C9 witness: index 3 of a completed run under the all-zeros stream. -/
theorem C9_witness :
    3 < (run_main ⟨true, true⟩ false (fun _ => 0) Fault.none).emitted.length ∧
    ((((run_main ⟨true, true⟩ false (fun _ => 0) Fault.none).emitted.getD 3
          defaultRecord).attrs.request_id = "req_" ++ zeroPad4 3) ∧
     (∃ n, 100 ≤ n ∧ n ≤ 999 ∧
       ((run_main ⟨true, true⟩ false (fun _ => 0) Fault.none).emitted.getD 3
           defaultRecord).attrs.user_id = "user_" ++ toString n) ∧
     (10 ≤ ((run_main ⟨true, true⟩ false (fun _ => 0) Fault.none).emitted.getD 3
           defaultRecord).attrs.latency_ms) ∧
     (((run_main ⟨true, true⟩ false (fun _ => 0) Fault.none).emitted.getD 3
           defaultRecord).attrs.latency_ms ≤ 500) ∧
     (((run_main ⟨true, true⟩ false (fun _ => 0) Fault.none).emitted.getD 3
           defaultRecord).attrs.endpoint ∈ endpoints) ∧
     (((run_main ⟨true, true⟩ false (fun _ => 0) Fault.none).emitted.getD 3
           defaultRecord).attrs.method ∈ methods) ∧
     (((run_main ⟨true, true⟩ false (fun _ => 0) Fault.none).emitted.getD 3
           defaultRecord).attrs.status_code ∈ status_codes)) :=
  ⟨by decide, C9_fresh_attribute_generation (fun _ => 0) Fault.none 3 (by decide)⟩

/-- C10: a completed run emits exactly 20 records; each record's
severity+message pair is one of the entries of the fixed catalog
`log_messages` (selected by the uniform choice primitive), and the catalog
contains at least one entry for each of the six severity levels. -/
theorem C10_twenty_records_from_catalog (s : Nat → Nat) :
    (run_main ⟨true, true⟩ false s Fault.none).emitted.length = recordCount ∧
    recordCount = 20 ∧
    (∀ r ∈ (run_main ⟨true, true⟩ false s Fault.none).emitted,
        (r.severity, r.message) ∈ log_messages) ∧
    (∀ sev : Severity, ∃ p ∈ log_messages, p.1 = sev) := by
  have he : get_exporter ⟨true, true⟩ false = .ok grpcExporter := rfl
  rw [run_main_eq_ok _ _ _ _ _ he]
  refine ⟨by simp [faultPoint], rfl, ?_, ?_⟩
  · intro r hr
    simp only [List.mem_map, List.mem_range] at hr
    obtain ⟨i, -, hi⟩ := hr
    rw [← hi]
    have hlt : s (6 * i) % log_messages.length < log_messages.length :=
      Nat.mod_lt _ (by decide)
    show log_messages.getD (s (6 * i) % log_messages.length) (.INFO, "") ∈ log_messages
    exact getD_mem_of_lt _ _ _ hlt
  · intro sev
    cases sev <;> decide
